import Mathlib

/-!
Shallow embedding of the hierarchical-consensus subnet governance actor
(`src/lib.rs` of `consensus-shipyard/hc-subnet-actor`) and proofs about it.

The repository ships only `src/lib.rs` (dispatcher and the five methods) and
its integration tests; the modules `state.rs`, `types.rs`, `utils.rs` and
`ext.rs` are declared there but their sources are absent.  Functions from
those modules (`State::new`, `add_stake`, `rm_stake`, `mutate_state`,
`has_majority_vote`, `verify_checkpoint`, `flush_checkpoint`, `get_stake`,
the map helpers and the external constants) are modelled from the
specification; their doc comments say so explicitly.  Everything else is
translated line by line from `src/lib.rs`.

Conventions of the embedding:
* actor ids and content identifiers (cids) are `Nat`;
* token amounts are `Int` (`TokenAmount` comparisons such as
  `amount <= TokenAmount::zero()` are meaningful on `Int`);
* the content-addressed nested maps (stake ledger, vote table, committed
  checkpoints) are association lists;
* host syscalls (`caller`, `value_received`, `current_balance`, actor code
  resolution, block-store availability) are a record `Env`;
* `abort!(code, ..)` is `Failure.abort code`; returning `Err(anyhow!(..))`
  is `Failure.err` — the dispatcher (`invoke`, lines 53-60 of the source)
  maps the former to its own code and the latter to `IllegalState`;
* outbound sends are recorded as a list of `Message`s (the host's
  message-sink view of `st.send`); sends themselves succeed, the SCA's
  reaction being out of scope.
-/

set_option autoImplicit false

namespace SubnetActor

/-! ### Association-list maps

Model of the content-addressed maps (`make_map_with_root`, `Map::get`,
`Map::set`, `Map::delete`, `flush`). The underlying `Hamt` keeps at most one
entry per key; `mapDelete` removes every entry with the key accordingly. -/

def mapGet {κ α : Type} [DecidableEq κ] (m : List (κ × α)) (k : κ) : Option α :=
  match m with
  | [] => none
  | (k2, v) :: rest => if k2 = k then some v else mapGet rest k

def mapSet {κ α : Type} [DecidableEq κ] (m : List (κ × α)) (k : κ) (v : α) :
    List (κ × α) :=
  match m with
  | [] => [(k, v)]
  | (k2, w) :: rest => if k2 = k then (k, v) :: rest else (k2, w) :: mapSet rest k v

def mapDelete {κ α : Type} [DecidableEq κ] (m : List (κ × α)) (k : κ) :
    List (κ × α) :=
  m.filter (fun p => decide (p.1 ≠ k))

/-! ### Data model -/

/-- Lifecycle status of the subnet (`types.rs`; the five states named by the
spec, §3). -/
inductive Status where
  | Instantiated
  | Active
  | Inactive
  | Terminating
  | Killed
deriving DecidableEq, Repr

/-- Ordered sequence of validator addresses that voted for a checkpoint cid
(`Votes` in the source). -/
structure Votes where
  validators : List Nat
deriving DecidableEq, Repr

/-- A checkpoint: `{source, epoch, prev_check, data}`.  `prev_check` is the
cid of the previously committed checkpoint, or `none`. -/
structure Checkpoint where
  source : Nat
  epoch : Int
  prev_check : Option Nat
  data : Nat
deriving DecidableEq, Repr

/-- Cantor pairing, used to build injective content encodings. -/
def natPair (a b : Nat) : Nat := (a + b) * (a + b + 1) / 2 + b

/-- Encoding of an `Int` as a `Nat` for content addressing. -/
def intCode : Int → Nat
  | .ofNat n => 2 * n
  | .negSucc n => 2 * n + 1

/-- Encoding of an `Option Nat` as a `Nat` for content addressing. -/
def optCode : Option Nat → Nat
  | none => 0
  | some n => n + 1

/-- Modelled from the spec: `checkpoint.cid()` — the content identifier of a
checkpoint is determined by its serialized content ("whose serialized form
hashes to its cid", §3); modelled as an injective encoding of the fields. -/
def Checkpoint.cid (ch : Checkpoint) : Nat :=
  natPair ch.source (natPair (intCode ch.epoch) (natPair (optCode ch.prev_check) ch.data))

/-- Constructor parameters (`ConstructParams` in `types.rs`, field list per
spec §6's inbound method table). -/
structure ConstructParams where
  parent : Nat
  name : String
  consensus : Nat
  min_validator_stake : Int
  min_validators : Nat
  finality_threshold : Int
  check_period : Int
  genesis : List Nat
deriving DecidableEq, Repr

/-- Join parameters (`JoinParams` in `types.rs`). -/
structure JoinParams where
  validator_net_addr : String
deriving DecidableEq, Repr

/-- The single persisted state root (`State` in `state.rs`, field list per
spec §3). -/
structure State where
  name : String
  parent : Nat
  consensus : Nat
  min_validator_stake : Int
  min_validators : Nat
  finality_threshold : Int
  check_period : Int
  genesis : List Nat
  status : Status
  total_stake : Int
  stake : List (Nat × Int)
  validator_set : List (Nat × String)
  window_checks : List (Nat × Votes)
  prev_checkpoint : Option Nat
  committed_checkpoints : List (Int × Checkpoint)
  testing : Bool
deriving DecidableEq, Repr

/-! ### External constants -/

/-- `pub const TEST_ADDR_ID: ActorID = 339;` (`src/lib.rs`, line 28). -/
def TEST_ADDR_ID : Nat := 339

/-- `const INIT_ACTOR_ADDR: ActorID = 1;` (`src/lib.rs`, line 89). -/
def INIT_ACTOR_ADDR : Nat := 1

/-- Modelled from the spec: the activation threshold `MIN_COLLATERAL_AMOUNT`
of the external crate `fil_actor_hierarchical_sca`, "a fixed global constant"
(§4.3); its concrete magnitude is opaque to the claims. -/
def MIN_COLLATERAL_AMOUNT : Int := 10 ^ 18

/-- Modelled from the spec: `SCA_ACTOR_ADDR` of `ext.rs` — the Subnet
Coordinator Actor "deployed at a well-known address" (§1). -/
def SCA_ACTOR_ADDR : Nat := 64

/-! ### Host environment and outcomes -/

/-- Runtime classification of a code cid
(`sdk::actor::get_builtin_actor_type`). -/
inductive ActorType where
  | Account
  | Init
  | Multisig
  | Unknown
deriving DecidableEq, Repr

/-- The host-runtime surface an invocation observes (spec §6), plus fault
switches for the two block-store operations visible in `lib.rs`: the
votes-map load (line 241) and the return-value `put_block` (line 55).  The
state-root codec itself lives in the absent `state.rs` and is given no
failure path here; no theorem below turns on its absence. -/
structure Env where
  caller : Nat
  value_received : Int
  current_balance : Int
  code_cid : Nat → Option Nat
  builtin_type : Nat → Option ActorType
  self_id : Nat
  is_test : Bool
  window_load_fails : Bool
  put_block_fails : Bool

/-- Exit codes this actor surfaces to the host (spec §6). -/
inductive ExitCode where
  | Forbidden
  | IllegalArgument
  | IllegalState
  | Serialization
  | UnhandledMessage
deriving DecidableEq, Repr

/-- How a method body fails: `abort code` is the `abort!` macro (immediate
exit with that code); `err` is returning `Err(anyhow!(..))`, which the
dispatcher maps to `IllegalState` (line 59 of the source). -/
inductive Failure where
  | abort (c : ExitCode)
  | err
deriving DecidableEq, Repr

/-- Method selector of an outbound message.  The numeric selectors live in
external crates; only their identities matter here.  `METHOD_SEND` is the
plain value transfer. -/
inductive MsgMethod where
  | METHOD_SEND
  | Register
  | AddStake
  | ReleaseStake
  | Kill
  | CommitChildCheckpoint
deriving DecidableEq, Repr

/-- Payload of an outbound message (`RawBytes::default()`, a serialized
`FundParams`, or a serialized checkpoint). -/
inductive MsgPayload where
  | empty
  | fund (value : Int)
  | chkpt (ch : Checkpoint)
deriving DecidableEq, Repr

/-- One outbound send: recipient, method, params, attached value. -/
structure Message where
  recipient : Nat
  method : MsgMethod
  params : MsgPayload
  value : Int
deriving DecidableEq, Repr

/-- Computation result: success or failure.  (Own inductive instead of
`Except` so that equality is decidable for concrete evaluation.) -/
inductive Ret (ε α : Type) where
  | ok (a : α)
  | error (e : ε)
deriving DecidableEq, Repr

/-- Result of one method body: failure, or new state, outbound messages and
optional return blob (every method of this actor returns `Ok(None)`). -/
abbrev MRes := Ret Failure (State × List Message × Option Nat)

/-- `get_actor_code_cid(&caller).unwrap_or(Cid::default())` followed by
`get_builtin_actor_type(&code_cid) == Some(Type::Account)` (`src/lib.rs`
lines 113-114): the caller-type ACL used by `join`, `leave` and
`submit_checkpoint`. -/
def callerIsAccount (env : Env) : Bool :=
  env.builtin_type ((env.code_cid env.caller).getD 0) == some ActorType.Account

/-! ### State operations modelled from the spec (`state.rs` is absent) -/

/-- Modelled from the spec: `State::new(params, is_test)` — "initialize
persisted state; status ← Instantiated" (§4.1), `total_stake` zero, empty
maps, `prev_checkpoint` null at construction (§3), `testing` locked at
construction. -/
def State.new (p : ConstructParams) (is_test : Bool) : State where
  name := p.name
  parent := p.parent
  consensus := p.consensus
  min_validator_stake := p.min_validator_stake
  min_validators := p.min_validators
  finality_threshold := p.finality_threshold
  check_period := p.check_period
  genesis := p.genesis
  status := Status.Instantiated
  total_stake := 0
  stake := []
  validator_set := []
  window_checks := []
  prev_checkpoint := none
  committed_checkpoints := []
  testing := is_test

/-- Modelled from the spec: `get_stake` of `state.rs` — "get(addr) → amount
(zero if absent)" (§4.2). -/
def get_stake (ledger : List (Nat × Int)) (addr : Nat) : Int :=
  (mapGet ledger addr).getD 0

/-- Modelled from the spec: `State::add_stake` — "ledger[addr] += amount;
total_stake += amount; if the new balance ≥ min_validator_stake, insert
(addr → net_addr) into validator_set (idempotent)" (§4.2). -/
def State.add_stake (st : State) (addr : Nat) (net_addr : String) (amount : Int) :
    State :=
  let bal := get_stake st.stake addr + amount
  { st with
    stake := mapSet st.stake addr bal
    total_stake := st.total_stake + amount
    validator_set :=
      if st.min_validator_stake ≤ bal then mapSet st.validator_set addr net_addr
      else st.validator_set }

/-- Modelled from the spec: `State::rm_stake` — "require ledger[addr] ==
amount ... Set ledger[addr] = 0; total_stake -= amount; remove addr from
validator_set" (§4.2); the requirement failing is an ordinary error. -/
def State.rm_stake (st : State) (addr : Nat) (amount : Int) : Ret Failure State :=
  if get_stake st.stake addr = amount then
    Ret.ok { st with
      stake := mapSet st.stake addr 0
      total_stake := st.total_stake - amount
      validator_set := mapDelete st.validator_set addr }
  else Ret.error Failure.err

/-- Modelled from the spec: `State::mutate_state` (§4.3): Instantiated with
total stake at the threshold becomes Active; Active with no validators
becomes Inactive; Inactive with validators and the threshold becomes Active
again; Terminating is "a transient in-progress state that the next
externally observable save normalizes to Killed" (the repository's test
observes `Killed` right after `kill()`); Killed is final. -/
def State.mutate_state (st : State) : State :=
  match st.status with
  | Status.Instantiated =>
      if MIN_COLLATERAL_AMOUNT ≤ st.total_stake then { st with status := Status.Active }
      else st
  | Status.Active =>
      if st.validator_set = [] then { st with status := Status.Inactive } else st
  | Status.Inactive =>
      if st.validator_set ≠ [] ∧ MIN_COLLATERAL_AMOUNT ≤ st.total_stake then
        { st with status := Status.Active }
      else st
  | Status.Terminating => { st with status := Status.Killed }
  | Status.Killed => st

/-- Modelled from the spec: `State::has_majority_vote` — "has_majority ⇔
|votes.validators| ≥ ⌈2 · |validator_set| / 3⌉ using ceiling division"
(§4.4). -/
def State.has_majority_vote (st : State) (v : Votes) : Bool :=
  (2 * st.validator_set.length + 2) / 3 ≤ v.validators.length

/-- Modelled from the spec: the subnet id of this actor, derived from the
parent path and the actor's own id (opaque; only its equality matters). -/
def subnetId (parent self : Nat) : Nat := natPair parent self

/-- Modelled from the spec: `State::verify_checkpoint` (§4.4) — fails unless
the checkpoint's source is this subnet, the caller is in `validator_set`,
the epoch is a positive multiple of `check_period`, no checkpoint is
committed at that epoch, and `prev_check` matches the most recently
committed checkpoint's cid (null if none). -/
def State.verify_checkpoint (st : State) (env : Env) (ch : Checkpoint) : Bool :=
  decide (ch.source = subnetId st.parent env.self_id) &&
  (mapGet st.validator_set env.caller).isSome &&
  decide (0 < ch.epoch) &&
  decide (ch.epoch % st.check_period = 0) &&
  decide (mapGet st.committed_checkpoints ch.epoch = none) &&
  decide (ch.prev_check = st.prev_checkpoint)

/-- Modelled from the spec: `State::flush_checkpoint` — "Persist ch into
committed_checkpoints[ch.epoch]; update prev_checkpoint = cid" (§4.4). -/
def State.flush_checkpoint (st : State) (ch : Checkpoint) : State :=
  { st with
    committed_checkpoints := mapSet st.committed_checkpoints ch.epoch ch
    prev_checkpoint := some ch.cid }

/-! ### The five methods (`impl SubnetActor for Actor`, `src/lib.rs`) -/

namespace Actor

/-- `Actor::constructor` (`src/lib.rs` lines 87-104), translated verbatim:
the guard is `caller != INIT_ACTOR_ADDR && (caller != TEST_ADDR_ID &&
is_test)`; past it, a fresh state is built from the parameters and saved. -/
def constructor (env : Env) (params : ConstructParams) : MRes :=
  let is_test := env.is_test
  if env.caller ≠ INIT_ACTOR_ADDR ∧ (env.caller ≠ TEST_ADDR_ID ∧ is_test) then
    Ret.error (Failure.abort ExitCode.Forbidden)
  else
    Ret.ok (State.new params is_test, [], none)

/-- `Actor::join` (`src/lib.rs` lines 109-148): caller-type ACL, positive
attached value, `add_stake`, then either `Register(total_stake)` to the SCA
(status `Instantiated` and balance at the threshold), `AddStake(amount)`
(status not `Instantiated`), or no send at all; finally `mutate_state` and
save. -/
def join (env : Env) (st0 : State) (params : JoinParams) : MRes :=
  if ¬ callerIsAccount env then Ret.error (Failure.abort ExitCode.Forbidden)
  else
    let amount := env.value_received
    if amount ≤ 0 then Ret.error (Failure.abort ExitCode.IllegalArgument)
    else
      let st := st0.add_stake env.caller params.validator_net_addr amount
      let msgs :=
        if st.status = Status.Instantiated then
          if MIN_COLLATERAL_AMOUNT ≤ env.current_balance then
            [⟨SCA_ACTOR_ADDR, MsgMethod.Register, MsgPayload.empty, st.total_stake⟩]
          else []
        else [⟨SCA_ACTOR_ADDR, MsgMethod.AddStake, MsgPayload.empty, amount⟩]
      Ret.ok (st.mutate_state, msgs, none)

/-- `Actor::leave` (`src/lib.rs` lines 151-188): caller-type ACL, read the
caller's full stake (abort `IllegalState` if zero), `ReleaseStake` to the
SCA unless `Terminating`, remove the full stake, transfer it back to the
caller, `mutate_state`, save. -/
def leave (env : Env) (st0 : State) : MRes :=
  if ¬ callerIsAccount env then Ret.error (Failure.abort ExitCode.Forbidden)
  else
    let stake := get_stake st0.stake env.caller
    if stake = 0 then Ret.error (Failure.abort ExitCode.IllegalState)
    else
      let msgs1 :=
        if st0.status ≠ Status.Terminating then
          [⟨SCA_ACTOR_ADDR, MsgMethod.ReleaseStake, MsgPayload.fund stake, 0⟩]
        else []
      match st0.rm_stake env.caller stake with
      | Ret.error e => Ret.error e
      | Ret.ok st =>
          Ret.ok (st.mutate_state,
            msgs1 ++ [⟨env.caller, MsgMethod.METHOD_SEND, MsgPayload.empty, stake⟩],
            none)

/-- `Actor::kill` (`src/lib.rs` lines 190-220): no caller-type check; abort
`IllegalState` when already `Terminating`/`Killed` or when validators
remain; else move to `Terminating`, send `Kill` to the SCA, `mutate_state`,
save. -/
def kill (st0 : State) : MRes :=
  if st0.status = Status.Terminating ∨ st0.status = Status.Killed then
    Ret.error (Failure.abort ExitCode.IllegalState)
  else if st0.validator_set.length ≠ 0 then
    Ret.error (Failure.abort ExitCode.IllegalState)
  else
    let st := { st0 with status := Status.Terminating }
    Ret.ok (st.mutate_state, [⟨SCA_ACTOR_ADDR, MsgMethod.Kill, MsgPayload.empty, 0⟩],
      none)

/-- `Actor::submit_checkpoint` (`src/lib.rs` lines 227-286): caller-type
ACL, `verify_checkpoint`, load the votes map (a block-store failure here is
an anyhow error), reject double votes, append the caller's vote; on
majority commit the checkpoint, send `CommitChildCheckpoint` to the SCA and
delete the vote entry if it was present; otherwise store the updated votes;
flush and save. -/
def submit_checkpoint (env : Env) (st0 : State) (ch : Checkpoint) : MRes :=
  if ¬ callerIsAccount env then Ret.error (Failure.abort ExitCode.Forbidden)
  else
    let ch_cid := ch.cid
    if ¬ st0.verify_checkpoint env ch then Ret.error Failure.err
    else if env.window_load_fails then Ret.error Failure.err
    else
      let votesOpt := mapGet st0.window_checks ch_cid
      let found := votesOpt.isSome
      let votes := votesOpt.getD ⟨[]⟩
      if env.caller ∈ votes.validators then Ret.error Failure.err
      else
        let votes2 : Votes := ⟨votes.validators ++ [env.caller]⟩
        if st0.has_majority_vote votes2 then
          let st := st0.flush_checkpoint ch
          let wc := if found then mapDelete st.window_checks ch_cid else st.window_checks
          Ret.ok ({ st with window_checks := wc },
            [⟨SCA_ACTOR_ADDR, MsgMethod.CommitChildCheckpoint, MsgPayload.chkpt ch, 0⟩],
            none)
        else
          Ret.ok ({ st0 with window_checks := mapSet st0.window_checks ch_cid votes2 },
            [], none)

end Actor

/-! ### Dispatcher (`invoke`, `src/lib.rs` lines 38-61) -/

/-- A decoded inbound invocation: selector plus (already deserialized)
parameters.  `unknownI` is any selector outside 1-5. -/
inductive Input where
  | constructorI (p : ConstructParams)
  | joinI (p : JoinParams)
  | leaveI
  | killI
  | submitI (ch : Checkpoint)
  | unknownI (selector : Nat)

/-- Lines 53-60 of the source: map a method result to the host outcome.
`Ok(None)` returns no data; `Ok(Some(v))` stores the return block, aborting
with `Serialization` if the block store fails; `abort!` surfaces its own
code; an anyhow `Err` aborts with `IllegalState`. -/
def handle_ret (env : Env) (r : MRes) :
    Ret ExitCode (State × List Message × Option Nat) :=
  match r with
  | Ret.ok (s, m, none) => Ret.ok (s, m, none)
  | Ret.ok (s, m, some v) =>
      if env.put_block_fails then Ret.error ExitCode.Serialization
      else Ret.ok (s, m, some v)
  | Ret.error (Failure.abort c) => Ret.error c
  | Ret.error Failure.err => Ret.error ExitCode.IllegalState

/-- Method dispatch on the selector (lines 42-49 of the source); unknown
selectors abort with `UnhandledMessage` (line 48). -/
def dispatch (env : Env) (st : State) (inp : Input) : MRes :=
  match inp with
  | Input.constructorI p => Actor.constructor env p
  | Input.joinI p => Actor.join env st p
  | Input.leaveI => Actor.leave env st
  | Input.killI => Actor.kill st
  | Input.submitI ch => Actor.submit_checkpoint env st ch
  | Input.unknownI _ => Ret.error (Failure.abort ExitCode.UnhandledMessage)

/-- `invoke`: dispatch on the method selector, then map the method result
through `handle_ret` (lines 53-60 of the source). -/
def invoke (env : Env) (st : State) (inp : Input) :
    Ret ExitCode (State × List Message × Option Nat) :=
  handle_ret env (dispatch env st inp)

/-! ### Concrete fixtures

Small concrete environments and states used to evaluate the embedding
(mirroring the shapes used by the repository's integration tests, with small
numbers in place of the 10^18-scale amounts). -/

/-- Constructor parameters analogous to the tests' `std_params`. -/
def stdParams : ConstructParams :=
  { parent := 0, name := "test", consensus := 0, min_validator_stake := 10,
    min_validators := 1, finality_threshold := 5, check_period := 10, genesis := [] }

/-- Join parameters analogous to the tests' `std_join_params`. -/
def stdJoinParams : JoinParams := { validator_net_addr := ":1234" }

/-- Environment builder: code cid 7 for every actor; classification is
`Account` for cid 7 exactly when `acct` is set. -/
def testEnv (caller : Nat) (v bal : Int) (acct is_test wlf : Bool) : Env where
  caller := caller
  value_received := v
  current_balance := bal
  code_cid := fun _ => some 7
  builtin_type := fun c => if acct ∧ c = 7 then some ActorType.Account else none
  self_id := 0
  is_test := is_test
  window_load_fails := wlf
  put_block_fails := false

/-- A caller that is neither the init actor, nor the test id, nor an
account-type actor. -/
def strangerEnv : Env := testEnv 42 0 0 false false false

/-- An account-type caller (id 7) attaching value 5, with actor balance 5. -/
def joinEnvSmall : Env := testEnv 7 5 5 true false false

/-- An account-type caller (id 7) attaching value 5, with the actor balance
already at the activation threshold. -/
def joinEnvRich : Env := testEnv 7 5 (10 ^ 18) true false false

/-- An account-type caller (id 7) attaching no value. -/
def chEnv : Env := testEnv 7 0 0 true false false

/-- Same caller, but loading the votes map from the block store fails. -/
def chEnvFail : Env := testEnv 7 0 0 true false true

/-- An environment in which storing a return-value block fails. -/
def putFailEnv : Env := { testEnv 7 0 0 true false false with put_block_fails := true }

/-- The state right after an authorized construction with `stdParams`. -/
def baseState : State := State.new stdParams false

/-- A `Killed` state (as left behind by a completed `kill()`). -/
def killedState : State := { baseState with status := Status.Killed }

/-- A state with the single validator 7 (majority threshold 1). -/
def chState1 : State := { baseState with validator_set := [(7, "x")] }

/-- A state with three validators (majority threshold 2). -/
def chState3 : State :=
  { baseState with validator_set := [(7, "a"), (8, "b"), (9, "c")] }

/-- A checkpoint that `chState1`/`chState3` verify for caller 7: source is
`subnetId 0 0`, epoch 10 (one `check_period`), no predecessor. -/
def ch0 : Checkpoint := { source := 0, epoch := 10, prev_check := none, data := 0 }

/-- `chState1` with a recorded vote by 7 for `ch0`. -/
def dupVoteState : State :=
  { chState1 with window_checks := [(ch0.cid, ⟨[7]⟩)] }

/-- `baseState` with validator 7 holding a stake of 5. -/
def stakeState : State :=
  { baseState with stake := [(7, 5)], total_stake := 5, validator_set := [] }

end SubnetActor

namespace SubnetActor

/-! ### Helper lemmas about the association-list maps -/

theorem mapGet_mapSet_self {κ α : Type} [DecidableEq κ] (m : List (κ × α)) (k : κ)
    (v : α) : mapGet (mapSet m k v) k = some v := by
  induction m with
  | nil => simp [mapGet, mapSet]
  | cons hd tl ih =>
    by_cases h : hd.1 = k
    · simp [mapSet, mapGet, h]
    · simpa [mapSet, mapGet, h] using ih

theorem mem_mapSet {κ α : Type} [DecidableEq κ] {m : List (κ × α)} {k : κ} {v : α}
    {p : κ × α} (hp : p ∈ mapSet m k v) : p = (k, v) ∨ p ∈ m := by
  induction m with
  | nil => simpa [mapSet] using hp
  | cons hd tl ih =>
    by_cases h : hd.1 = k
    · rcases (by simpa [mapSet, h] using hp : p = (k, v) ∨ p ∈ tl) with h1 | h1
      · exact Or.inl h1
      · exact Or.inr (List.mem_cons_of_mem _ h1)
    · rcases (by simpa [mapSet, h] using hp : p = hd ∨ p ∈ mapSet tl k v) with h1 | h1
      · exact Or.inr (h1 ▸ List.mem_cons_self hd tl)
      · rcases ih h1 with h2 | h2
        · exact Or.inl h2
        · exact Or.inr (List.mem_cons_of_mem _ h2)

theorem mem_mapDelete {κ α : Type} [DecidableEq κ] {m : List (κ × α)} {k : κ}
    {p : κ × α} (hp : p ∈ mapDelete m k) : p ∈ m :=
  List.mem_of_mem_filter hp

theorem mapGet_mapDelete_self {κ α : Type} [DecidableEq κ] (m : List (κ × α))
    (k : κ) : mapGet (mapDelete m k) k = none := by
  induction m with
  | nil => simp [mapDelete, mapGet]
  | cons hd tl ih =>
    by_cases h : hd.1 = k
    · simpa [mapDelete, mapGet, h] using ih
    · simpa [mapDelete, mapGet, h] using ih

theorem mapGet_mem {κ α : Type} [DecidableEq κ] {m : List (κ × α)} {k : κ} {v : α}
    (h : mapGet m k = some v) : (k, v) ∈ m := by
  induction m with
  | nil => simp [mapGet] at h
  | cons hd tl ih =>
    by_cases h1 : hd.1 = k
    · have : hd.2 = v := by simpa [mapGet, h1] using h
      have : hd = (k, v) := Prod.ext h1 this
      exact this ▸ List.mem_cons_self hd tl
    · exact List.mem_cons_of_mem _ (ih (by simpa [mapGet, h1] using h))

/-! ### Helper lemmas about the state operations -/

theorem add_stake_status (st : State) (a : Nat) (n : String) (v : Int) :
    (st.add_stake a n v).status = st.status := rfl

theorem add_stake_total (st : State) (a : Nat) (n : String) (v : Int) :
    (st.add_stake a n v).total_stake = st.total_stake + v := rfl

theorem mutate_state_stake (st : State) : st.mutate_state.stake = st.stake := by
  unfold State.mutate_state
  cases st.status <;> simp <;> split <;> rfl

theorem mutate_state_total (st : State) :
    st.mutate_state.total_stake = st.total_stake := by
  unfold State.mutate_state
  cases st.status <;> simp <;> split <;> rfl

theorem get_stake_all_zero {ledger : List (Nat × Int)} {a : Nat}
    (h : ∀ q ∈ ledger, q.2 = 0) : get_stake ledger a = 0 := by
  unfold get_stake
  cases hg : mapGet ledger a with
  | none => rfl
  | some v => simpa using h (a, v) (mapGet_mem hg)

/-! ### Claim theorems -/

/-- C1: the claim — every constructor call whose caller is neither the init
actor nor the test-bypass id with testing enabled aborts with `Forbidden`
and persists nothing — fails on the code.  The guard is
`caller != INIT && (caller != TEST_ADDR_ID && is_test)`, so with testing
disabled the whole ACL is inert: caller 42 (no special identity, testing
off) constructs and persists a fresh state. -/
theorem c1_constructor_acl_bypass :
    strangerEnv.caller ≠ INIT_ACTOR_ADDR ∧
    strangerEnv.caller ≠ TEST_ADDR_ID ∧
    strangerEnv.is_test = false ∧
    invoke strangerEnv baseState (Input.constructorI stdParams) =
      Ret.ok (State.new stdParams false, [], none) := by
  refine ⟨by decide, by decide, rfl, ?_⟩
  rfl

/-- C9: a `join` by an account-type caller with attached value `v ≤ 0`
aborts with `IllegalArgument`; nothing is credited and nothing is sent (the
abort carries no state and no messages). -/
theorem c9_join_nonpositive_value (env : Env) (st : State) (p : JoinParams)
    (hacct : callerIsAccount env = true) (hv : env.value_received ≤ 0) :
    invoke env st (Input.joinI p) = Ret.error ExitCode.IllegalArgument := by
  simp [invoke, handle_ret, dispatch, Actor.join, hacct, hv]

/-- Witness for C9 at caller 7 (account type) attaching value 0. -/
theorem c9_join_nonpositive_value_witness :
    (callerIsAccount chEnv = true ∧ chEnv.value_received ≤ 0) ∧
    invoke chEnv baseState (Input.joinI stdJoinParams) =
      Ret.error ExitCode.IllegalArgument :=
  ⟨⟨by decide, by decide⟩,
    c9_join_nonpositive_value chEnv baseState stdJoinParams (by decide) (by decide)⟩

/-- C10: once past the caller check, the constructor persists a fresh state
built only from the parameters: the result is the same for every prior
state, so a second authorized construction discards all recorded stake,
validators, checkpoints and status. -/
theorem c10_constructor_overwrites (env : Env) (p : ConstructParams)
    (h : ¬ (env.caller ≠ INIT_ACTOR_ADDR ∧ (env.caller ≠ TEST_ADDR_ID ∧ env.is_test))) :
    ∀ prior : State, invoke env prior (Input.constructorI p) =
      Ret.ok (State.new p env.is_test, [], none) := by
  intro prior
  simp [invoke, handle_ret, dispatch, Actor.constructor, h]

/-- Witness for C10: the init actor constructs over a prior state that
already has stake and validators; the result is the fresh state. -/
theorem c10_constructor_overwrites_witness :
    (¬ ((testEnv 1 0 0 false false false).caller ≠ INIT_ACTOR_ADDR ∧
        ((testEnv 1 0 0 false false false).caller ≠ TEST_ADDR_ID ∧
         (testEnv 1 0 0 false false false).is_test))) ∧
    invoke (testEnv 1 0 0 false false false) stakeState (Input.constructorI stdParams) =
      Ret.ok (State.new stdParams false, [], none) :=
  ⟨by decide, c10_constructor_overwrites (testEnv 1 0 0 false false false) stdParams
    (by decide) stakeState⟩

/-- C2 counterexample: `kill` (selector 4) performs no caller-type check:
a caller that is not an account-type actor is not rejected with `Forbidden`;
on an `Instantiated` state with no validators it succeeds, moves the subnet
to `Killed` and sends `Kill` to the SCA. -/
theorem c2_kill_skips_acl :
    callerIsAccount strangerEnv = false ∧
    invoke strangerEnv baseState Input.killI =
      Ret.ok ({ baseState with status := Status.Killed },
        [⟨SCA_ACTOR_ADDR, MsgMethod.Kill, MsgPayload.empty, 0⟩], none) := by
  exact ⟨by decide, rfl⟩

/-- C2 (amended): `join`, `leave` and `submit_checkpoint` (selectors 2, 3
and 5) fail with `Forbidden` before any state change or outbound send when
the caller's resolved code is not classified as an account-type actor;
`kill` (selector 4) performs no such check. -/
theorem c2_account_acl (env : Env) (st : State) (p : JoinParams) (ch : Checkpoint)
    (h : callerIsAccount env = false) :
    invoke env st (Input.joinI p) = Ret.error ExitCode.Forbidden ∧
    invoke env st Input.leaveI = Ret.error ExitCode.Forbidden ∧
    invoke env st (Input.submitI ch) = Ret.error ExitCode.Forbidden := by
  refine ⟨?_, ?_, ?_⟩ <;>
    simp [invoke, handle_ret, dispatch, Actor.join, Actor.leave, Actor.submit_checkpoint, h]

/-- Witness for C2 (amended) at the non-account caller 42. -/
theorem c2_account_acl_witness :
    callerIsAccount strangerEnv = false ∧
    (invoke strangerEnv baseState (Input.joinI stdJoinParams) =
       Ret.error ExitCode.Forbidden ∧
     invoke strangerEnv baseState Input.leaveI = Ret.error ExitCode.Forbidden ∧
     invoke strangerEnv baseState (Input.submitI ch0) =
       Ret.error ExitCode.Forbidden) :=
  ⟨by decide, c2_account_acl strangerEnv baseState stdJoinParams ch0 (by decide)⟩

end SubnetActor

namespace SubnetActor

/-- C3 counterexample: an account caller joins an `Instantiated` subnet with
value 5 while the actor balance (5) is below the activation threshold; the
code emits no outbound message at all, where the claim demands a single
`SCA.AddStake` message carrying 5. -/
theorem c3_join_below_threshold_silent :
    baseState.status = Status.Instantiated ∧
    callerIsAccount joinEnvSmall = true ∧
    (0 : Int) < joinEnvSmall.value_received ∧
    joinEnvSmall.current_balance < MIN_COLLATERAL_AMOUNT ∧
    invoke joinEnvSmall baseState (Input.joinI stdJoinParams) =
      Ret.ok ({ baseState with stake := [(7, 5)], total_stake := 5 }, [], none) := by
  refine ⟨rfl, by decide, by decide, by decide, ?_⟩
  rfl

/-- C3 (amended): a successful `join` with value `v > 0` by an account-type
caller emits `SCA.Register` with value `total_stake` when the prior status
was `Instantiated` and the actor balance is at least the activation
threshold; emits `SCA.AddStake` with value `v` when the prior status was not
`Instantiated`; and emits no outbound message when the prior status was
`Instantiated` but the balance is below the threshold. -/
theorem c3_join_outbound_messages (env : Env) (st : State) (p : JoinParams)
    (hacct : callerIsAccount env = true) (hv : 0 < env.value_received) :
    (st.status = Status.Instantiated → MIN_COLLATERAL_AMOUNT ≤ env.current_balance →
      invoke env st (Input.joinI p) =
        Ret.ok ((st.add_stake env.caller p.validator_net_addr env.value_received).mutate_state,
          [⟨SCA_ACTOR_ADDR, MsgMethod.Register, MsgPayload.empty,
            st.total_stake + env.value_received⟩], none)) ∧
    (st.status = Status.Instantiated → env.current_balance < MIN_COLLATERAL_AMOUNT →
      invoke env st (Input.joinI p) =
        Ret.ok ((st.add_stake env.caller p.validator_net_addr env.value_received).mutate_state,
          [], none)) ∧
    (st.status ≠ Status.Instantiated →
      invoke env st (Input.joinI p) =
        Ret.ok ((st.add_stake env.caller p.validator_net_addr env.value_received).mutate_state,
          [⟨SCA_ACTOR_ADDR, MsgMethod.AddStake, MsgPayload.empty, env.value_received⟩],
          none)) := by
  have hv2 : ¬ env.value_received ≤ 0 := not_le.mpr hv
  refine ⟨fun h1 h2 => ?_, fun h1 h2 => ?_, fun h1 => ?_⟩
  · simp [invoke, handle_ret, dispatch, Actor.join, hacct, hv2, add_stake_status, add_stake_total, h1, h2]
  · simp [invoke, handle_ret, dispatch, Actor.join, hacct, hv2, add_stake_status, add_stake_total, h1,
      not_le.mpr h2]
  · simp [invoke, handle_ret, dispatch, Actor.join, hacct, hv2, add_stake_status, h1]

/-- Witness for C3 (amended): caller 7 joins with value 5 while the balance
is at the threshold, so `Register` is emitted with the new total stake 5. -/
theorem c3_join_outbound_messages_witness :
    (callerIsAccount joinEnvRich = true ∧ (0 : Int) < joinEnvRich.value_received ∧
     baseState.status = Status.Instantiated ∧
     MIN_COLLATERAL_AMOUNT ≤ joinEnvRich.current_balance) ∧
    invoke joinEnvRich baseState (Input.joinI stdJoinParams) =
      Ret.ok ((baseState.add_stake joinEnvRich.caller stdJoinParams.validator_net_addr
          joinEnvRich.value_received).mutate_state,
        [⟨SCA_ACTOR_ADDR, MsgMethod.Register, MsgPayload.empty,
          baseState.total_stake + joinEnvRich.value_received⟩], none) :=
  ⟨⟨by decide, by decide, rfl, by decide⟩,
    (c3_join_outbound_messages joinEnvRich baseState stdJoinParams (by decide)
      (by decide)).1 rfl (by decide)⟩

/-- C6: `leave` by an account-type caller aborts with `IllegalState` when
the caller's ledger balance is zero; with a positive balance `s` it succeeds
withdrawing the whole of `s` (ledger balance drops to zero, total stake
drops by `s`), emits `SCA.ReleaseStake` with payload value `s` and attached
value 0 exactly when the status is not `Terminating`, and transfers `s`
back to the caller. -/
theorem c6_leave_full_stake (env : Env) (st : State)
    (hacct : callerIsAccount env = true) :
    (get_stake st.stake env.caller = 0 →
      invoke env st Input.leaveI = Ret.error ExitCode.IllegalState) ∧
    (0 < get_stake st.stake env.caller →
      ∃ st2, invoke env st Input.leaveI =
          Ret.ok (st2,
            (if st.status ≠ Status.Terminating then
               [⟨SCA_ACTOR_ADDR, MsgMethod.ReleaseStake,
                 MsgPayload.fund (get_stake st.stake env.caller), 0⟩]
             else []) ++
            [⟨env.caller, MsgMethod.METHOD_SEND, MsgPayload.empty,
              get_stake st.stake env.caller⟩], none) ∧
        get_stake st2.stake env.caller = 0 ∧
        st2.total_stake = st.total_stake - get_stake st.stake env.caller) := by
  constructor
  · intro h0
    simp [invoke, handle_ret, dispatch, Actor.leave, hacct, h0]
  · intro hpos
    have hne : ¬ get_stake st.stake env.caller = 0 := ne_of_gt hpos
    refine ⟨({ st with
            stake := mapSet st.stake env.caller 0,
            total_stake := st.total_stake - get_stake st.stake env.caller,
            validator_set := mapDelete st.validator_set env.caller } : State).mutate_state,
      ?_, ?_, ?_⟩
    · simp [invoke, handle_ret, dispatch, Actor.leave, hacct, hne, State.rm_stake]
    · rw [mutate_state_stake]
      simp [get_stake, mapGet_mapSet_self]
    · rw [mutate_state_total]

/-- Witness for C6: caller 7 holds a stake of 5 in `stakeState` and leaves,
receiving the full 5 back. -/
theorem c6_leave_full_stake_witness :
    (callerIsAccount chEnv = true ∧ (0 : Int) < get_stake stakeState.stake chEnv.caller) ∧
    (∃ st2, invoke chEnv stakeState Input.leaveI =
        Ret.ok (st2,
          (if stakeState.status ≠ Status.Terminating then
             [⟨SCA_ACTOR_ADDR, MsgMethod.ReleaseStake,
               MsgPayload.fund (get_stake stakeState.stake chEnv.caller), 0⟩]
           else []) ++
          [⟨chEnv.caller, MsgMethod.METHOD_SEND, MsgPayload.empty,
            get_stake stakeState.stake chEnv.caller⟩], none) ∧
      get_stake st2.stake chEnv.caller = 0 ∧
      st2.total_stake = stakeState.total_stake - get_stake stakeState.stake chEnv.caller) :=
  ⟨⟨by decide, by decide⟩,
    (c6_leave_full_stake chEnv stakeState (by decide)).2 (by decide)⟩

/-- C7 counterexample: on a `Killed` state, `join` by an account caller with
positive value does not abort: it succeeds, credits the stake, sends
`AddStake` to the SCA, and the persisted state differs from the prior one. -/
theorem c7_join_succeeds_when_killed :
    killedState.status = Status.Killed ∧
    invoke joinEnvSmall killedState (Input.joinI stdJoinParams) =
      Ret.ok ({ killedState with stake := [(7, 5)], total_stake := 5 },
        [⟨SCA_ACTOR_ADDR, MsgMethod.AddStake, MsgPayload.empty, 5⟩], none) ∧
    ({ killedState with stake := [(7, 5)], total_stake := (5 : Int) } : State) ≠
      killedState := by
  refine ⟨rfl, ?_, by decide⟩
  rfl

/-- C7 (amended): in a `Killed` state satisfying the Killed-state invariants
(all ledger entries zero, zero total stake, no validators): `kill` aborts
with `IllegalState`; `leave` by an account caller aborts with
`IllegalState`; `submit_checkpoint` by an account caller fails with
`IllegalState` for every checkpoint; but `join` performs no status check —
an account caller with positive attached value succeeds and modifies the
persisted state. -/
theorem c7_killed_state_amended (env : Env) (st : State) (p : JoinParams)
    (hst : st.status = Status.Killed)
    (hled : ∀ q ∈ st.stake, q.2 = 0)
    (hval : st.validator_set = [])
    (htot : st.total_stake = 0)
    (hacct : callerIsAccount env = true)
    (hv : 0 < env.value_received) :
    invoke env st Input.killI = Ret.error ExitCode.IllegalState ∧
    invoke env st Input.leaveI = Ret.error ExitCode.IllegalState ∧
    (∀ ch : Checkpoint, invoke env st (Input.submitI ch) = Ret.error ExitCode.IllegalState) ∧
    ∃ st2 msgs, invoke env st (Input.joinI p) = Ret.ok (st2, msgs, none) ∧ st2 ≠ st := by
  have hv2 : ¬ env.value_received ≤ 0 := not_le.mpr hv
  refine ⟨?_, ?_, ?_, ?_⟩
  · simp [invoke, handle_ret, dispatch, Actor.kill, hst]
  · have h0 : get_stake st.stake env.caller = 0 := get_stake_all_zero hled
    simp [invoke, handle_ret, dispatch, Actor.leave, hacct, h0]
  · intro ch
    have hvfalse : st.verify_checkpoint env ch = false := by
      simp [State.verify_checkpoint, hval, mapGet]
    simp [invoke, handle_ret, dispatch, Actor.submit_checkpoint, hacct, hvfalse]
  · refine ⟨(st.add_stake env.caller p.validator_net_addr env.value_received).mutate_state,
      [⟨SCA_ACTOR_ADDR, MsgMethod.AddStake, MsgPayload.empty, env.value_received⟩],
      ?_, ?_⟩
    · simp [invoke, handle_ret, dispatch, Actor.join, hacct, hv2, add_stake_status, hst]
    · intro he
      have h1 := congrArg State.total_stake he
      rw [mutate_state_total, add_stake_total, htot] at h1
      omega

/-- Witness for C7 (amended) on the concrete `Killed` state with caller 7
attaching value 5. -/
theorem c7_killed_state_amended_witness :
    (killedState.status = Status.Killed ∧ (∀ q ∈ killedState.stake, q.2 = 0) ∧
     killedState.validator_set = [] ∧ killedState.total_stake = 0 ∧
     callerIsAccount joinEnvSmall = true ∧ (0 : Int) < joinEnvSmall.value_received) ∧
    (invoke joinEnvSmall killedState Input.killI = Ret.error ExitCode.IllegalState ∧
     invoke joinEnvSmall killedState Input.leaveI = Ret.error ExitCode.IllegalState ∧
     (∀ ch : Checkpoint, invoke joinEnvSmall killedState (Input.submitI ch) =
        Ret.error ExitCode.IllegalState) ∧
     ∃ st2 msgs, invoke joinEnvSmall killedState (Input.joinI stdJoinParams) =
        Ret.ok (st2, msgs, none) ∧ st2 ≠ killedState) :=
  ⟨⟨rfl, by decide, rfl, rfl, by decide, by decide⟩,
    c7_killed_state_amended joinEnvSmall killedState stdJoinParams rfl (by decide)
      rfl rfl (by decide) (by decide)⟩

/-- Shape of every method result: the return blob is always `none` (every
method of `lib.rs` ends in `Ok(None)`). -/
theorem method_ret_shape (env : Env) (st : State) (inp : Input) :
    ∀ s m v, dispatch env st inp ≠ Ret.ok (s, m, some v) := by
  cases inp <;>
    intro s m v <;>
    simp only [dispatch, Actor.constructor, Actor.join, Actor.leave, Actor.kill,
      Actor.submit_checkpoint, State.rm_stake] <;>
    (repeat' split) <;> simp_all

/-- C8 (amended): the `Serialization` exit code guards the storing of a
return-value block (line 57 of the source): when `put_block` fails on a
result carrying data, the dispatcher aborts with `Serialization`.  A
block-store failure while loading the votes map from its root inside
`submit_checkpoint` is instead wrapped as an anyhow error and aborts with
`IllegalState`. -/
theorem c8_serialization_scope :
    (∀ (env : Env) (s : State) (m : List Message) (v : Nat),
      env.put_block_fails = true →
      handle_ret env (Ret.ok (s, m, some v)) = Ret.error ExitCode.Serialization) ∧
    (∀ (env : Env) (st : State) (ch : Checkpoint),
      callerIsAccount env = true → st.verify_checkpoint env ch = true →
      env.window_load_fails = true →
      invoke env st (Input.submitI ch) = Ret.error ExitCode.IllegalState) := by
  constructor
  · intro env s m v hpb
    simp [handle_ret, hpb]
  · intro env st ch hacct hver hload
    simp [invoke, handle_ret, dispatch, Actor.submit_checkpoint, hacct, hver, hload]

/-- Witness for C8 (amended): with a failing return-value block store the
dispatcher's result mapping surfaces `Serialization`, and a concrete
verifying submission whose votes map fails to load aborts with
`IllegalState`. -/
theorem c8_serialization_scope_witness :
    (putFailEnv.put_block_fails = true ∧
     handle_ret putFailEnv (Ret.ok (baseState, [], some 0)) =
       Ret.error ExitCode.Serialization) ∧
    ((callerIsAccount chEnvFail = true ∧
      chState1.verify_checkpoint chEnvFail ch0 = true ∧
      chEnvFail.window_load_fails = true) ∧
     invoke chEnvFail chState1 (Input.submitI ch0) = Ret.error ExitCode.IllegalState) :=
  ⟨⟨by decide, c8_serialization_scope.1 putFailEnv baseState [] 0 (by decide)⟩,
   ⟨⟨by decide, by decide, by decide⟩,
    c8_serialization_scope.2 chEnvFail chState1 ch0 (by decide) (by decide) (by decide)⟩⟩

/-- C8 counterexample: the claim says a failing block-store load surfaces as
`Serialization`; on this concrete invocation (caller 7, verifying
checkpoint, votes-map load failure) the code aborts with `IllegalState`,
which is a different exit code. -/
theorem c8_votes_map_load_illegal_state :
    chState1.verify_checkpoint chEnvFail ch0 = true ∧
    chEnvFail.window_load_fails = true ∧
    invoke chEnvFail chState1 (Input.submitI ch0) = Ret.error ExitCode.IllegalState ∧
    ExitCode.IllegalState ≠ ExitCode.Serialization := by
  refine ⟨by decide, by decide, ?_, by decide⟩
  rfl

end SubnetActor

namespace SubnetActor

/-- Appending a fresh element to a duplicate-free list keeps it
duplicate-free. -/
theorem nodup_append_singleton {l : List Nat} {a : Nat} (h : l.Nodup)
    (ha : a ∉ l) : (l ++ [a]).Nodup := by
  simp [List.nodup_append, h, ha]

/-- Unfolding of `invoke` at selector 5. -/
theorem invoke_submitI (env : Env) (st : State) (ch : Checkpoint) :
    invoke env st (Input.submitI ch) =
      handle_ret env (Actor.submit_checkpoint env st ch) := rfl

/-- Any successful `submit_checkpoint` keeps every stored vote set
duplicate-free: the only write is the caller's vote appended to a set it was
absent from (or a deletion). -/
theorem submit_ok_nodup (env : Env) (st : State) (ch : Checkpoint)
    (out : State × List Message × Option Nat)
    (hnd : ∀ q ∈ st.window_checks, q.2.validators.Nodup)
    (hok : Actor.submit_checkpoint env st ch = Ret.ok out) :
    ∀ q ∈ out.1.window_checks, q.2.validators.Nodup := by
  simp only [Actor.submit_checkpoint] at hok
  split at hok
  · exact absurd hok (by simp)
  · split at hok
    · exact absurd hok (by simp)
    · split at hok
      · exact absurd hok (by simp)
      · split at hok
        · exact absurd hok (by simp)
        · rename_i hmem
          split at hok
          · injection hok with h2
            subst h2
            intro q hq
            dsimp only at hq
            split at hq
            · exact hnd q (mem_mapDelete hq)
            · exact hnd q hq
          · injection hok with h2
            subst h2
            intro q hq
            dsimp only at hq
            rcases mem_mapSet hq with h3 | h3
            · have hvn : ((mapGet st.window_checks ch.cid).getD ⟨[]⟩).validators.Nodup := by
                cases hg : mapGet st.window_checks ch.cid with
                | none => simp
                | some vs => simpa using hnd (ch.cid, vs) (mapGet_mem hg)
              subst h3
              exact nodup_append_singleton hvn hmem
            · exact hnd q h3

/-- C5: a `submit_checkpoint` whose caller already appears in the stored
vote set for the checkpoint's cid fails with `IllegalState` (the anyhow
error "miner has already voted" mapped by the dispatcher) and persists
nothing; and every successful `submit_checkpoint` keeps all stored vote
sets duplicate-free, so a validator appears at most once in any reachable
`Votes` set. -/
theorem c5_duplicate_vote_rejected :
    (∀ (env : Env) (st : State) (ch : Checkpoint) (vs : Votes),
      callerIsAccount env = true →
      st.verify_checkpoint env ch = true →
      env.window_load_fails = false →
      mapGet st.window_checks ch.cid = some vs →
      env.caller ∈ vs.validators →
      invoke env st (Input.submitI ch) = Ret.error ExitCode.IllegalState) ∧
    (∀ (env : Env) (st : State) (ch : Checkpoint)
        (out : State × List Message × Option Nat),
      (∀ q ∈ st.window_checks, q.2.validators.Nodup) →
      invoke env st (Input.submitI ch) = Ret.ok out →
      ∀ q ∈ out.1.window_checks, q.2.validators.Nodup) := by
  constructor
  · intro env st ch vs hacct hver hload hg hmem
    simp [invoke, handle_ret, dispatch, Actor.submit_checkpoint, hacct, hver,
      hload, hg, hmem]
  · intro env st ch out hnd hok
    rw [invoke_submitI] at hok
    cases hr : Actor.submit_checkpoint env st ch with
    | ok a =>
      obtain ⟨s, m, v⟩ := a
      cases v with
      | none =>
        rw [hr] at hok
        simp only [handle_ret] at hok
        injection hok with h2
        subst h2
        exact submit_ok_nodup env st ch (s, m, none) hnd hr
      | some v =>
        exact absurd hr (method_ret_shape env st (Input.submitI ch) s m v)
    | error f =>
      rw [hr] at hok
      cases f <;> simp [handle_ret] at hok

/-- Witness for C5: in `dupVoteState` validator 7 has already voted for
`ch0`; its second submission aborts with `IllegalState`. -/
theorem c5_duplicate_vote_rejected_witness :
    (callerIsAccount chEnv = true ∧
     dupVoteState.verify_checkpoint chEnv ch0 = true ∧
     chEnv.window_load_fails = false ∧
     mapGet dupVoteState.window_checks ch0.cid = some ⟨[7]⟩ ∧
     chEnv.caller ∈ (Votes.mk [7]).validators) ∧
    invoke chEnv dupVoteState (Input.submitI ch0) = Ret.error ExitCode.IllegalState :=
  ⟨⟨by decide, by decide, by decide, by decide, by decide⟩,
    c5_duplicate_vote_rejected.1 chEnv dupVoteState ch0 ⟨[7]⟩ (by decide) (by decide)
      (by decide) (by decide) (by decide)⟩

/-- C4: a verifying `submit_checkpoint` by a non-duplicate voter: when the
updated vote set reaches the majority predicate, the checkpoint is
committed at its epoch, `prev_checkpoint` becomes its cid, one
`SCA.CommitChildCheckpoint` message with the serialized checkpoint and
value 0 is emitted, and the saved state has no `window_checks` entry for
the cid; when the majority predicate fails, the updated vote set is stored
at `window_checks[cid]`, nothing is committed and no message is sent. -/
theorem c4_submit_majority_commit (env : Env) (st : State) (ch : Checkpoint)
    (hacct : callerIsAccount env = true)
    (hver : st.verify_checkpoint env ch = true)
    (hload : env.window_load_fails = false)
    (hnv : env.caller ∉ ((mapGet st.window_checks ch.cid).getD ⟨[]⟩).validators) :
    (st.has_majority_vote
        ⟨((mapGet st.window_checks ch.cid).getD ⟨[]⟩).validators ++ [env.caller]⟩ = true →
      ∃ st2, invoke env st (Input.submitI ch) =
          Ret.ok (st2,
            [⟨SCA_ACTOR_ADDR, MsgMethod.CommitChildCheckpoint, MsgPayload.chkpt ch, 0⟩],
            none) ∧
        mapGet st2.committed_checkpoints ch.epoch = some ch ∧
        st2.prev_checkpoint = some ch.cid ∧
        mapGet st2.window_checks ch.cid = none) ∧
    (st.has_majority_vote
        ⟨((mapGet st.window_checks ch.cid).getD ⟨[]⟩).validators ++ [env.caller]⟩ = false →
      ∃ st2, invoke env st (Input.submitI ch) = Ret.ok (st2, [], none) ∧
        mapGet st2.window_checks ch.cid =
          some ⟨((mapGet st.window_checks ch.cid).getD ⟨[]⟩).validators ++ [env.caller]⟩ ∧
        st2.committed_checkpoints = st.committed_checkpoints ∧
        st2.prev_checkpoint = st.prev_checkpoint) := by
  constructor
  · intro hmaj
    refine ⟨{ st.flush_checkpoint ch with
        window_checks :=
          if (mapGet st.window_checks ch.cid).isSome then
            mapDelete (st.flush_checkpoint ch).window_checks ch.cid
          else (st.flush_checkpoint ch).window_checks }, ?_, ?_, ?_, ?_⟩
    · simp [invoke, handle_ret, dispatch, Actor.submit_checkpoint, hacct, hver,
        hload, hnv, hmaj]
    · simp [State.flush_checkpoint, mapGet_mapSet_self]
    · simp [State.flush_checkpoint]
    · by_cases hf : (mapGet st.window_checks ch.cid).isSome
      · simp [hf, State.flush_checkpoint, mapGet_mapDelete_self]
      · have hnone : mapGet st.window_checks ch.cid = none :=
          Option.not_isSome_iff_eq_none.mp hf
        simp [hf, State.flush_checkpoint, hnone]
  · intro hmaj
    refine ⟨{ st with
        window_checks := mapSet st.window_checks ch.cid
          ⟨((mapGet st.window_checks ch.cid).getD ⟨[]⟩).validators ++ [env.caller]⟩ },
      ?_, ?_, rfl, rfl⟩
    · simp [invoke, handle_ret, dispatch, Actor.submit_checkpoint, hacct, hver,
        hload, hnv, hmaj]
    · simp [mapGet_mapSet_self]

/-- Witness for C4: `chState1` has the single validator 7 (majority
threshold 1), so its first vote commits `ch0` and sends the commit message
to the SCA. -/
theorem c4_submit_majority_commit_witness :
    (callerIsAccount chEnv = true ∧
     chState1.verify_checkpoint chEnv ch0 = true ∧
     chEnv.window_load_fails = false ∧
     chEnv.caller ∉ ((mapGet chState1.window_checks ch0.cid).getD ⟨[]⟩).validators ∧
     chState1.has_majority_vote
       ⟨((mapGet chState1.window_checks ch0.cid).getD ⟨[]⟩).validators ++
         [chEnv.caller]⟩ = true) ∧
    (∃ st2, invoke chEnv chState1 (Input.submitI ch0) =
        Ret.ok (st2,
          [⟨SCA_ACTOR_ADDR, MsgMethod.CommitChildCheckpoint, MsgPayload.chkpt ch0, 0⟩],
          none) ∧
      mapGet st2.committed_checkpoints ch0.epoch = some ch0 ∧
      st2.prev_checkpoint = some ch0.cid ∧
      mapGet st2.window_checks ch0.cid = none) :=
  ⟨⟨by decide, by decide, by decide, by decide, by decide⟩,
    (c4_submit_majority_commit chEnv chState1 ch0 (by decide) (by decide) (by decide)
      (by decide)).1 (by decide)⟩

end SubnetActor
